import Mathlib

/-!
Verification of the resilience and caching layer of `agente_ventes`
(`src/ventas/services/circuit_breaker.py`, `_resilience.py`, `categorias.py`,
`costo_envio.py`, `busqueda_productos.py` and `agent/agent.py`).

Time is modelled as a natural-number clock (seconds); every operation that
consults `cachetools`' monotonic timer takes the current instant `now`
explicitly.  Machine integers in the source are Python arbitrary-precision
ints; the failure counters only ever grow from 0 by `+ 1`, so `Nat` is exact.
-/

namespace Ventas

/-- One entry of a `cachetools.TTLCache`: key, stored value and the absolute
expiry instant (`link.expires = time + ttl` at insertion). -/
structure TTLEntry (κ α : Type) where
  key : κ
  value : α
  expires : Nat
deriving DecidableEq

/-- Shallow model of `cachetools.TTLCache(maxsize=…, ttl=…)`.  `entries` is
kept in (re)insertion order, which for a constant ttl is also expiry order
(the order `popitem` evicts in). -/
structure TTLCache (κ α : Type) where
  maxsize : Nat
  ttl : Nat
  entries : List (TTLEntry κ α)
deriving DecidableEq

variable {κ α : Type} [DecidableEq κ]

/-- Lookup of the link stored for `k`, expired or not. -/
def TTLCache.findEntry (c : TTLCache κ α) (k : κ) : Option (TTLEntry κ α) :=
  c.entries.find? (fun e => decide (e.key = k))

/-- `cache[k]` with the TTL check of `TTLCache.__getitem__`: an entry is
visible only while `now < expires` (`expired = not (link.expires > time)`). -/
def TTLCache.get? (c : TTLCache κ α) (k : κ) (now : Nat) : Option α :=
  match c.findEntry k with
  | some e => if now < e.expires then some e.value else none
  | none => none

/-- `cache.get(k, default)`. -/
def TTLCache.get (c : TTLCache κ α) (k : κ) (now : Nat) (default : α) : α :=
  (c.get? k now).getD default

/-- `k in cache`: present and not yet expired. -/
def TTLCache.contains (c : TTLCache κ α) (k : κ) (now : Nat) : Bool :=
  (c.get? k now).isSome

/-- `TTLCache.expire(time)`: lazily drop every expired entry. -/
def TTLCache.expire (c : TTLCache κ α) (now : Nat) : TTLCache κ α :=
  { c with entries := c.entries.filter (fun e => decide (now < e.expires)) }

/-- `cache[k] = v` (`TTLCache.__setitem__`): run the expiry sweep, then store
`v` under `k` with a fresh expiry `now + ttl`, moving the link to the tail.
Inserting a new key into a full cache first evicts the oldest entries. -/
def TTLCache.set (c : TTLCache κ α) (k : κ) (v : α) (now : Nat) : TTLCache κ α :=
  let es := (c.expire now).entries
  let kept :=
    if es.any (fun e => decide (e.key = k)) then
      es.filter (fun e => decide (e.key ≠ k))
    else
      es.drop (es.length + 1 - c.maxsize)
  { c with entries := kept ++ [⟨k, v, now + c.ttl⟩] }

/-- `cache.pop(k, None)`: remove the link stored for `k`. -/
def TTLCache.popKey (c : TTLCache κ α) (k : κ) : TTLCache κ α :=
  { c with entries := c.entries.filter (fun e => decide (e.key ≠ k)) }

/-- `CircuitBreaker` (circuit_breaker.py).  Failure counts are kept in a
`TTLCache(maxsize=500, ttl=reset_ttl)`; circuit keys (`id_empresa`,
`id_chatbot`) are ints, modelled as `Nat`. -/
structure CircuitBreaker where
  threshold : Nat
  failures : TTLCache Nat Nat
deriving DecidableEq

/-- `CircuitBreaker.__init__(name, threshold, reset_ttl)` (the `name` field is
only used for logging). -/
def CircuitBreaker.init (threshold resetTtl : Nat) : CircuitBreaker :=
  ⟨threshold, ⟨500, resetTtl, []⟩⟩

/-- `self._failures.get(key, 0)`. -/
def CircuitBreaker.failureCount (cb : CircuitBreaker) (k now : Nat) : Nat :=
  cb.failures.get k now 0

/-- `is_open(key)`: `self._failures.get(key, 0) >= self._threshold`. -/
def CircuitBreaker.is_open (cb : CircuitBreaker) (k now : Nat) : Bool :=
  decide (cb.threshold ≤ cb.failureCount k now)

/-- `record_failure(key)`: `new = current + 1; self._failures[key] = new`
(the rest of the method is logging). -/
def CircuitBreaker.record_failure (cb : CircuitBreaker) (k now : Nat) : CircuitBreaker :=
  let current := cb.failures.get k now 0
  { cb with failures := cb.failures.set k (current + 1) now }

/-- `record_success(key)`: `if key in self._failures: self._failures.pop(key, None)`. -/
def CircuitBreaker.record_success (cb : CircuitBreaker) (k now : Nat) : CircuitBreaker :=
  if cb.failures.contains k now then
    { cb with failures := cb.failures.popKey k }
  else
    cb

/-- `any_open()`: `any(count >= self._threshold for count in self._failures.values())`
(`values()` only yields unexpired entries). -/
def CircuitBreaker.any_open (cb : CircuitBreaker) (now : Nat) : Bool :=
  (cb.failures.entries.filter (fun e => decide (now < e.expires))).any
    (fun e => decide (cb.threshold ≤ e.value))

/-- `n` consecutive `record_failure(k)` calls with nothing in between. -/
def CircuitBreaker.iterFailures (cb : CircuitBreaker) (k now : Nat) : Nat → CircuitBreaker
  | 0 => cb
  | n + 1 => (cb.iterFailures k now n).record_failure k now

/-- Outcome of awaiting `coro_factory()` in `_resilience.resilient_call`:
either a normal return, an `httpx.TransportError`, or any other exception
(`httpx.HTTPStatusError` etc.).  Exceptions carry a numeric identity so that
re-raising "the same error" is expressible. -/
inductive CallOutcome (α : Type) where
  | ok (value : α)
  | transportError (exc : Nat)
  | otherError (exc : Nat)
deriving DecidableEq

/-- What `resilient_call` lets escape to its caller. -/
inductive CallError where
  | circuitOpen
  | transport (exc : Nat)
  | other (exc : Nat)
deriving DecidableEq

/-- Result of one `resilient_call`: the value returned or exception raised,
the breaker state afterwards, and whether the delegate was ever awaited. -/
structure RCOutcome (α : Type) where
  result : Except CallError α
  cb : CircuitBreaker
  delegateInvoked : Bool

/-- `_resilience.resilient_call(coro_factory, cb, circuit_key, service_name)`.

- circuit open → `RuntimeError` immediately, delegate not invoked;
- normal return → `cb.record_success(circuit_key)`, value returned;
- `httpx.TransportError` → `cb.record_failure(circuit_key)`, re-raised;
- any other exception → re-raised, breaker untouched. -/
def resilient_call {α : Type} (outcome : CallOutcome α) (cb : CircuitBreaker)
    (circuitKey now : Nat) : RCOutcome α :=
  if cb.is_open circuitKey now then
    ⟨.error .circuitOpen, cb, false⟩
  else
    match outcome with
    | .ok v => ⟨.ok v, cb.record_success circuitKey now, true⟩
    | .transportError e => ⟨.error (.transport e), cb.record_failure circuitKey now, true⟩
    | .otherError e => ⟨.error (.other e), cb, true⟩

/-- A well-formed business payload: a JSON object carrying a `success` flag,
as returned by the MaravIA endpoints. -/
structure ApiPayload where
  success : Bool
deriving DecidableEq

/-- `categorias._DEFAULT_MSG`. -/
def DEFAULT_MSG_CATEGORIAS : String :=
  "No hay información de productos y servicios cargada. Usa la herramienta search_productos_servicios cuando pregunten por algo concreto."

/-- Payload of `OBTENER_CATEGORIAS`: the `success` flag plus the list of
category records (opaque to the resilience core, which only tests emptiness
and hands them to the formatter). -/
structure CategoriasData where
  success : Bool
  categorias : List Nat
deriving DecidableEq

/-- `categorias.obtener_categorias(id_empresa)`: read-through TTL cache (1h)
over `resilient_call(post_informacion)`.  `format` stands for
`format_categorias_para_prompt`, pure string formatting outside the
resilience core.  Returns (value, cache afterwards, breaker afterwards). -/
def obtener_categorias (cache : TTLCache Nat String) (cb : CircuitBreaker)
    (id_empresa now : Nat) (outcome : CallOutcome CategoriasData)
    (format : List Nat → String) : String × TTLCache Nat String × CircuitBreaker :=
  if cache.contains id_empresa now then
    ((cache.get? id_empresa now).getD "", cache, cb)
  else
    let r := resilient_call outcome cb id_empresa now
    match r.result with
    | .error _ => (DEFAULT_MSG_CATEGORIAS, cache, r.cb)
    | .ok data =>
      if data.success = false then
        (DEFAULT_MSG_CATEGORIAS, cache, r.cb)
      else if data.categorias.isEmpty then
        (DEFAULT_MSG_CATEGORIAS, cache, r.cb)
      else
        (format data.categorias, cache.set id_empresa (format data.categorias) now, r.cb)

/-- Payload of `OBTENER_COSTO_ENVIO`: the `success` flag plus the raw
`zonas_costos` JSON string (absent or empty when falsy). -/
structure CostoEnvioData where
  success : Bool
  zonas_costos : Option String
deriving DecidableEq

/-- `costo_envio.obtener_costos_envio(id_empresa)`: read-through TTL cache
(1h) over `resilient_call(post_informacion)`.  `parseZonas` stands for
`json.loads(...)["zonas"]` (returning `none` on a parse error) and `format`
for `format_costos_envio_para_prompt`. -/
def obtener_costos_envio (cache : TTLCache Nat String) (cb : CircuitBreaker)
    (id_empresa now : Nat) (outcome : CallOutcome CostoEnvioData)
    (parseZonas : String → Option (List Nat)) (format : List Nat → String) :
    String × TTLCache Nat String × CircuitBreaker :=
  if cache.contains id_empresa now then
    ((cache.get? id_empresa now).getD "", cache, cb)
  else
    let r := resilient_call outcome cb id_empresa now
    match r.result with
    | .error _ => ("", cache, r.cb)
    | .ok data =>
      if data.success = false then
        ("", cache, r.cb)
      else
        match data.zonas_costos with
        | none => ("", cache, r.cb)
        | some raw =>
          if raw = "" then
            ("", cache, r.cb)
          else
            match parseZonas raw with
            | none => ("", cache, r.cb)
            | some zonas =>
              if zonas.isEmpty then
                ("", cache, r.cb)
              else
                (format zonas, cache.set id_empresa (format zonas) now, r.cb)

/-- The ASCII whitespace characters `str.strip()` removes. -/
def pySpaceChars : List Char := [' ', '\t', '\n', '\x0d', '\x0b', '\x0c']

/-- Membership in the whitespace set. -/
def isPySpace (c : Char) : Bool := pySpaceChars.contains c

/-- Python `s.strip()`: remove leading and trailing whitespace. -/
def pyStrip (s : String) : String :=
  String.mk (((s.data.dropWhile isPySpace).reverse.dropWhile isPySpace).reverse)

/-- Python `s.lower()`, character-wise. -/
def pyLower (s : String) : String :=
  String.mk (s.data.map Char.toLower)

/-- `VentasStructuredResponse` (pydantic): mandatory `reply`, optional `url`. -/
structure VentasStructuredResponse where
  reply : String
  url : Option String
deriving DecidableEq

/-- The dict returned by `agent.ainvoke`: the optional
`structured_response` plus the `messages` list (contents as strings). -/
structure InvokeResult where
  structured : Option VentasStructuredResponse
  messages : List String
deriving DecidableEq

/-- Classification recorded through `record_chat_error`. -/
inductive ErrorClass where
  | contextError
  | agentCreationError
  | agentExecutionError
deriving DecidableEq

/-- What `process_venta_message` does towards its caller: return a
`(reply, url)` tuple, or let an exception propagate. -/
inductive ProcessResult where
  | returns (reply : String) (url : Option String)
  | raises (msg : String)
deriving DecidableEq

/-- Observable trace of one `process_venta_message` call. -/
structure ProcessTrace where
  result : ProcessResult
  recordedError : Option ErrorClass
  agentCacheTouched : Bool
  sessionLockTouched : Bool
  llmInvoked : Bool
deriving DecidableEq

/-- Reply/url extraction from the agent result (agent.py lines 318-333):
a structured response is preferred (empty reply and blank url fall back),
otherwise the last message content, otherwise a fixed apology. -/
def extract_reply (result : InvokeResult) : String × Option String :=
  match result.structured with
  | some s =>
    let reply := if s.reply = "" then "Lo siento, no pude procesar tu solicitud." else s.reply
    let url :=
      match s.url with
      | some u => if u = "" then none else if pyStrip u = "" then none else some u
      | none => none
    (reply, url)
  | none =>
    match result.messages.getLast? with
    | some m => (m, none)
    | none => ("Lo siento, no pude procesar tu solicitud.", none)

/-- `agent.process_venta_message(message, session_id, context)`.

The collaborators are supplied as outcomes: `contextError` is the result of
`_validate_context` (`none` = valid, `some msg` = the `ValueError` message),
`agentOutcome` is what `await _get_agent(config)` does (agent built, or an
exception raised during the build), and `invokeOutcome` is what the
`agent.ainvoke` block does.  The boolean trace fields record whether the
agent cache, the session-lock registry and the LLM were reached. -/
def process_venta_message (message : String) (session_id : Int)
    (contextError : Option String)
    (agentOutcome : Except Nat Nat)
    (invokeOutcome : Except Nat InvokeResult) : ProcessTrace :=
  if message = "" ∨ pyStrip message = "" then
    ⟨.returns "No recibí tu mensaje. ¿Podrías repetirlo?" none, none, false, false, false⟩
  else if session_id < 0 then
    ⟨.raises "session_id es requerido (entero no negativo)", none, false, false, false⟩
  else
    match contextError with
    | some msg =>
      ⟨.returns ("Error de configuración: " ++ msg) none,
        some .contextError, false, false, false⟩
    | none =>
      match agentOutcome with
      | .error _ =>
        ⟨.returns "Disculpa, tuve un problema de configuración. ¿Podrías intentar nuevamente?"
            none,
          some .agentCreationError, true, false, false⟩
      | .ok _ =>
        match invokeOutcome with
        | .error _ =>
          ⟨.returns
              "Disculpa, tuve un problema al procesar tu mensaje. ¿Podrías intentar nuevamente?"
              none,
            some .agentExecutionError, true, true, true⟩
        | .ok result =>
          ⟨.returns (extract_reply result).1 (extract_reply result).2,
            none, true, true, true⟩

/-- Payload of `BUSCAR_PRODUCTOS_SERVICIOS_VENTAS_DIRECTAS` (product records
opaque). -/
structure BusquedaData where
  success : Bool
  productos : List Nat
  error : Option String
  message : Option String
deriving DecidableEq

/-- The dict `buscar_productos_servicios` returns. -/
structure BusquedaResult where
  success : Bool
  productos : List Nat
  error : Option String
deriving DecidableEq

/-- Python `a or b` on an optional string (`None` and `""` are falsy). -/
def orElseStr (a : Option String) (b : String) : String :=
  match a with
  | some s => if s = "" then b else s
  | none => b

/-- `busqueda_productos` cache key: `(id_empresa, busqueda.strip().lower())`. -/
def busquedaCacheKey (id_empresa : Nat) (busqueda : String) : Nat × String :=
  (id_empresa, pyLower (pyStrip busqueda))

/-- `busqueda_productos._do_busqueda_api`: the real API call through
`resilient_call`; caches the result only on `success`, and turns every
exception into the timeout-flavoured failure dict. -/
def do_busqueda_api (cache : TTLCache (Nat × String) BusquedaResult) (cb : CircuitBreaker)
    (id_empresa : Nat) (cache_key : Nat × String) (outcome : CallOutcome BusquedaData)
    (now : Nat) :
    BusquedaResult × TTLCache (Nat × String) BusquedaResult × CircuitBreaker :=
  let r := resilient_call outcome cb id_empresa now
  match r.result with
  | .error _ =>
    (⟨false, [], some "La búsqueda tardó demasiado. Intenta de nuevo."⟩, cache, r.cb)
  | .ok data =>
    if data.success = false then
      (⟨false, [], some (orElseStr data.error (orElseStr data.message "Error desconocido"))⟩,
        cache, r.cb)
    else
      (⟨true, data.productos, none⟩,
        cache.set cache_key ⟨true, data.productos, none⟩ now, r.cb)

/-- Observable trace of one `buscar_productos_servicios` call. -/
structure BusquedaTrace where
  result : BusquedaResult
  cache : TTLCache (Nat × String) BusquedaResult
  cb : CircuitBreaker
  apiCalled : Bool
deriving DecidableEq

/-- `busqueda_productos.buscar_productos_servicios(id_empresa, busqueda)`:
empty-term guard, TTL cache keyed by `(id_empresa, término normalizado)`,
circuit-breaker fast reject, then the per-key lock with its double-check.
With a single caller nothing can change while acquiring the uncontended
lock, so the double-check re-reads the same cache state. -/
def buscar_productos_servicios (cache : TTLCache (Nat × String) BusquedaResult)
    (cb : CircuitBreaker) (id_empresa : Nat) (busqueda : String) (now : Nat)
    (outcome : CallOutcome BusquedaData) : BusquedaTrace :=
  if pyStrip busqueda = "" then
    ⟨⟨false, [], some "El término de búsqueda no puede estar vacío"⟩, cache, cb, false⟩
  else
    let cache_key := (id_empresa, pyLower (pyStrip busqueda))
    if cache.contains cache_key now then
      ⟨(cache.get? cache_key now).getD ⟨false, [], none⟩, cache, cb, false⟩
    else if cb.is_open id_empresa now then
      ⟨⟨false, [],
          some "El servicio de búsqueda no está disponible temporalmente. Intenta en unos minutos."⟩,
        cache, cb, false⟩
    else
      if cache.contains cache_key now then
        ⟨(cache.get? cache_key now).getD ⟨false, [], none⟩, cache, cb, false⟩
      else
        let res := do_busqueda_api cache cb id_empresa cache_key outcome now
        ⟨res.1, res.2.1, res.2.2, true⟩

/-- Phase of one `_get_agent` caller for a fixed tenant key (the same
pattern, per `(id_empresa, término)` key, is `buscar_productos_servicios`).
The atomic blocks between `await` points of the coroutine are: entry up to
`async with lock` (fast-path check, cleanup, `setdefault`, an uncontended
acquire, the double-check and the build start — no `await` separates them),
the `await _build_agent_for_empresa(...)` suspension, and the
store / release / `finally`-pop epilogue. -/
inductive SFPhase where
  | start
  | waiting (gen : Nat)
  | building (gen : Nat) (invocation : Nat)
  | doneOk (agent : Nat)
  | doneErr
deriving DecidableEq

/-- Global state of `n` concurrent `_get_agent` callers for one tenant key.
No simulated time passes during the scenario, so the tenant's `_agent_cache`
slot behaves as a plain optional value; a built agent is identified by the
build invocation that created it.  `lockInDict` is the key's slot of
`_agent_cache_locks`; lock objects are identified by a creation generation
because the `finally` pop can remove the lock from the dict while waiters
still hold a reference and a later `setdefault` creates a fresh object.
`held g` says whether lock object `g` is currently held.  `builderCount`
counts `_build_agent_for_empresa` invocations. -/
structure SFState (n : Nat) where
  cache : Option Nat
  lockInDict : Option Nat
  nextGen : Nat
  held : Nat → Bool
  callers : Fin n → SFPhase
  builderCount : Nat

/-- Initial state of the claim's scenario: empty cache, no lock object yet,
every caller about to execute, builder never invoked. -/
def SFState.init (n : Nat) : SFState n :=
  ⟨none, none, 0, fun _ => false, fun _ => .start, 0⟩

/-- One cooperative-scheduling step of the `n` callers.  `buildOk v` says
whether build invocation `v` completes the builder successfully (for the
search cache: completes with a cacheable `success` result); a failed build
caches nothing and propagates to its caller alone. -/
inductive SFStep (n : Nat) (buildOk : Nat → Bool) : SFState n → SFState n → Prop where
  | startHit (s : SFState n) (i : Fin n) (v : Nat)
      (hph : s.callers i = .start) (hc : s.cache = some v) :
      SFStep n buildOk s { s with callers := Function.update s.callers i (.doneOk v) }
  | startNewLock (s : SFState n) (i : Fin n)
      (hph : s.callers i = .start) (hc : s.cache = none) (hl : s.lockInDict = none) :
      SFStep n buildOk s
        { s with
          lockInDict := some s.nextGen
          nextGen := s.nextGen + 1
          held := Function.update s.held s.nextGen true
          builderCount := s.builderCount + 1
          callers := Function.update s.callers i (.building s.nextGen (s.builderCount + 1)) }
  | startLockFree (s : SFState n) (i : Fin n) (g : Nat)
      (hph : s.callers i = .start) (hc : s.cache = none) (hl : s.lockInDict = some g)
      (hh : s.held g = false) :
      SFStep n buildOk s
        { s with
          held := Function.update s.held g true
          builderCount := s.builderCount + 1
          callers := Function.update s.callers i (.building g (s.builderCount + 1)) }
  | startLockHeld (s : SFState n) (i : Fin n) (g : Nat)
      (hph : s.callers i = .start) (hc : s.cache = none) (hl : s.lockInDict = some g)
      (hh : s.held g = true) :
      SFStep n buildOk s { s with callers := Function.update s.callers i (.waiting g) }
  | waitHit (s : SFState n) (i : Fin n) (g : Nat) (v : Nat)
      (hph : s.callers i = .waiting g) (hh : s.held g = false) (hc : s.cache = some v) :
      SFStep n buildOk s
        { s with
          lockInDict := none
          callers := Function.update s.callers i (.doneOk v) }
  | waitMiss (s : SFState n) (i : Fin n) (g : Nat)
      (hph : s.callers i = .waiting g) (hh : s.held g = false) (hc : s.cache = none) :
      SFStep n buildOk s
        { s with
          held := Function.update s.held g true
          builderCount := s.builderCount + 1
          callers := Function.update s.callers i (.building g (s.builderCount + 1)) }
  | buildSucceeds (s : SFState n) (i : Fin n) (g v : Nat)
      (hph : s.callers i = .building g v) (hok : buildOk v = true) :
      SFStep n buildOk s
        { s with
          cache := some v
          held := Function.update s.held g false
          lockInDict := none
          callers := Function.update s.callers i (.doneOk v) }
  | buildFails (s : SFState n) (i : Fin n) (g v : Nat)
      (hph : s.callers i = .building g v) (hok : buildOk v = false) :
      SFStep n buildOk s
        { s with
          held := Function.update s.held g false
          lockInDict := none
          callers := Function.update s.callers i .doneErr }

/-- States reachable from the empty-cache initial state. -/
def SFReachable (n : Nat) (buildOk : Nat → Bool) (s : SFState n) : Prop :=
  Relation.ReflTransGen (SFStep n buildOk) (SFState.init n) s

/-- The caller has returned (normally or with an exception). -/
def SFPhase.isDone : SFPhase → Bool
  | .doneOk _ => true
  | .doneErr => true
  | _ => false

/-- The caller has a builder invocation in flight. -/
def SFPhase.isBuilding : SFPhase → Bool
  | .building _ _ => true
  | _ => false

/-- Inductive invariant of the singleflight pattern when every build
invocation succeeds. -/
structure SFInv {n : Nat} (s : SFState n) : Prop where
  count_le : s.builderCount ≤ 1
  gen_le : s.nextGen ≤ 1
  held_lt : ∀ g, s.held g = true → g < s.nextGen
  dict_lt : ∀ g, s.lockInDict = some g → g < s.nextGen
  wait_lt : ∀ i g, s.callers i = SFPhase.waiting g → g < s.nextGen
  build_inv : ∀ i g v, s.callers i = SFPhase.building g v →
    v = 1 ∧ s.builderCount = 1 ∧ s.cache = none ∧ s.lockInDict = some g ∧ s.held g = true
  build_uniq : ∀ i j gi vi gj vj, s.callers i = SFPhase.building gi vi →
    s.callers j = SFPhase.building gj vj → i = j
  cache_inv : ∀ v, s.cache = some v → v = 1 ∧ s.builderCount = 1
  done_inv : ∀ i v, s.callers i = SFPhase.doneOk v → v = 1 ∧ s.builderCount = 1
  no_err : ∀ i, s.callers i ≠ SFPhase.doneErr
  count_one : s.builderCount = 1 →
    s.cache = some 1 ∨ ∃ i g, s.callers i = SFPhase.building g 1
  gen_one : s.nextGen = 1 → s.lockInDict = some 0 ∨ s.cache = some 1

/-- Builder behaviour where every invocation succeeds. -/
def sfAllOk : Nat → Bool := fun _ => true

/-- Builder behaviour whose first invocation fails (e.g. the upstream
configuration fetch raises) and later invocations succeed. -/
def sfFirstFails : Nat → Bool := fun v => decide (2 ≤ v)

/-- Two callers on an empty cache: caller 0 has created the lock and started
the first build. -/
def sfW1 : SFState 2 :=
  { SFState.init 2 with
    lockInDict := some (SFState.init 2).nextGen
    nextGen := (SFState.init 2).nextGen + 1
    held := Function.update (SFState.init 2).held (SFState.init 2).nextGen true
    builderCount := (SFState.init 2).builderCount + 1
    callers := Function.update (SFState.init 2).callers 0
      (SFPhase.building (SFState.init 2).nextGen ((SFState.init 2).builderCount + 1)) }

/-- Caller 0's build succeeded: agent 1 cached, lock released and popped. -/
def sfW2 : SFState 2 :=
  { sfW1 with
    cache := some 1
    held := Function.update sfW1.held 0 false
    lockInDict := none
    callers := Function.update sfW1.callers 0 (SFPhase.doneOk 1) }

/-- Caller 1 then takes the fast path and observes the same agent. -/
def sfW3 : SFState 2 :=
  { sfW2 with callers := Function.update sfW2.callers 1 (SFPhase.doneOk 1) }

/-- (counterexample trace) Caller 1 arrived while caller 0 held the lock and
queued on it. -/
def sfC2 : SFState 2 :=
  { sfW1 with callers := Function.update sfW1.callers 1 (SFPhase.waiting 0) }

/-- (counterexample trace) Caller 0's build failed: nothing cached, lock
released and popped from the dict, the failure propagated to caller 0. -/
def sfC3 : SFState 2 :=
  { sfC2 with
    held := Function.update sfC2.held 0 false
    lockInDict := none
    callers := Function.update sfC2.callers 0 SFPhase.doneErr }

/-- (counterexample trace) Caller 1 acquires the lock, double-checks, still
misses, and starts a second build. -/
def sfC4 : SFState 2 :=
  { sfC3 with
    held := Function.update sfC3.held 0 true
    builderCount := sfC3.builderCount + 1
    callers := Function.update sfC3.callers 1
      (SFPhase.building 0 (sfC3.builderCount + 1)) }

/-- (counterexample trace) The second build succeeds and caller 1 observes
agent 2 while caller 0 observed a failure. -/
def sfC5 : SFState 2 :=
  { sfC4 with
    cache := some 2
    held := Function.update sfC4.held 0 false
    lockInDict := none
    callers := Function.update sfC4.callers 1 (SFPhase.doneOk 2) }

-- ---------------------------------------------------------------------------
-- Basic lemmas about the TTLCache model
-- ---------------------------------------------------------------------------

theorem List.find?_append_singleton_of_none {β : Type} {p : β → Bool} {l : List β} {x : β}
    (h : ∀ e ∈ l, p e = false) (hx : p x = true) : (l ++ [x]).find? p = some x := by
  induction l with
  | nil => simp [List.find?, hx]
  | cons a l ih =>
    have ha : p a = false := h a (by simp)
    simp only [List.cons_append, List.find?, ha]
    exact ih (fun e he => h e (by simp [he]))

theorem TTLCache.findEntry_set_self (c : TTLCache κ α) (k : κ) (v : α) (now : Nat) :
    (c.set k v now).findEntry k = some ⟨k, v, now + c.ttl⟩ := by
  unfold TTLCache.set TTLCache.findEntry
  simp only
  set es := (c.expire now).entries with hes
  by_cases h : es.any (fun e => decide (e.key = k))
  · simp only [h, if_true]
    apply List.find?_append_singleton_of_none
    · intro e he
      have := (List.mem_filter.mp he).2
      simp only [decide_eq_true_eq] at this
      simp [this]
    · simp
  · simp only [h, if_false]
    apply List.find?_append_singleton_of_none
    · intro e he
      have hmem : e ∈ es := List.mem_of_mem_drop he
      have : ¬ (es.any (fun e => decide (e.key = k)) = true) := by simp [h]
      rw [List.any_eq_true] at this
      push_neg at this
      have := this e hmem
      simpa using this
    · simp

theorem TTLCache.get?_set_self (c : TTLCache κ α) (k : κ) (v : α) (now now2 : Nat) :
    (c.set k v now).get? k now2 = if now2 < now + c.ttl then some v else none := by
  unfold TTLCache.get?
  rw [TTLCache.findEntry_set_self]

theorem TTLCache.contains_set_self (c : TTLCache κ α) (k : κ) (v : α) (now now2 : Nat)
    (h : now2 < now + c.ttl) : (c.set k v now).contains k now2 = true := by
  unfold TTLCache.contains
  rw [TTLCache.get?_set_self, if_pos h]
  rfl

theorem TTLCache.findEntry_popKey_self (c : TTLCache κ α) (k : κ) :
    (c.popKey k).findEntry k = none := by
  unfold TTLCache.popKey TTLCache.findEntry
  rw [List.find?_eq_none]
  intro e he
  have := (List.mem_filter.mp he).2
  simp only [decide_eq_true_eq] at this
  simp [this]

theorem TTLCache.ttl_set (c : TTLCache κ α) (k : κ) (v : α) (now : Nat) :
    (c.set k v now).ttl = c.ttl := rfl

-- ---------------------------------------------------------------------------
-- Lemmas about the breaker
-- ---------------------------------------------------------------------------

theorem CircuitBreaker.failureCount_record_failure (cb : CircuitBreaker) (k now now2 : Nat) :
    (cb.record_failure k now).failureCount k now2 =
      if now2 < now + cb.failures.ttl then cb.failureCount k now + 1 else 0 := by
  unfold CircuitBreaker.record_failure CircuitBreaker.failureCount TTLCache.get
  rw [TTLCache.get?_set_self]
  by_cases h : now2 < now + cb.failures.ttl <;> simp [h]

theorem CircuitBreaker.failureCount_record_success (cb : CircuitBreaker) (k now : Nat) :
    (cb.record_success k now).failureCount k now = 0 := by
  unfold CircuitBreaker.record_success
  by_cases h : cb.failures.contains k now
  · simp only [h, if_true]
    unfold CircuitBreaker.failureCount TTLCache.get TTLCache.get?
    rw [TTLCache.findEntry_popKey_self]
    rfl
  · have h0 : cb.failures.get? k now = none := by
      unfold TTLCache.contains at h
      rwa [Option.not_isSome_iff_eq_none] at h
    simp [h, CircuitBreaker.failureCount, TTLCache.get, h0]

theorem CircuitBreaker.threshold_record_failure (cb : CircuitBreaker) (k now : Nat) :
    (cb.record_failure k now).threshold = cb.threshold := rfl

theorem CircuitBreaker.iterFailures_init_eq (th ttl k now : Nat) (httl : 1 ≤ ttl) (n : Nat) :
    (CircuitBreaker.init th ttl).iterFailures k now n =
      ⟨th, ⟨500, ttl, if n = 0 then [] else [⟨k, n, now + ttl⟩]⟩⟩ := by
  induction n with
  | zero => rfl
  | succ n ih =>
    have hlt : now < now + ttl := Nat.lt_add_of_pos_right httl
    unfold CircuitBreaker.iterFailures
    rw [ih]
    cases n with
    | zero =>
      simp [CircuitBreaker.record_failure, TTLCache.set, TTLCache.expire, TTLCache.get,
        TTLCache.get?, TTLCache.findEntry, List.find?]
    | succ m =>
      simp [CircuitBreaker.record_failure, TTLCache.set, TTLCache.expire, TTLCache.get,
        TTLCache.get?, TTLCache.findEntry, List.find?, hlt]

theorem CircuitBreaker.iterFailures_init_count (th ttl k now : Nat) (httl : 1 ≤ ttl) (n : Nat) :
    ((CircuitBreaker.init th ttl).iterFailures k now n).failureCount k now = n := by
  rw [CircuitBreaker.iterFailures_init_eq th ttl k now httl n]
  cases n with
  | zero => rfl
  | succ m =>
    simp [CircuitBreaker.failureCount, TTLCache.get, TTLCache.get?, TTLCache.findEntry,
      List.find?, Nat.lt_add_of_pos_right httl]

-- ---------------------------------------------------------------------------
-- Claims C1 – C5
-- ---------------------------------------------------------------------------

/-- Claim C1, counterexample: a delegate that completes normally with a
well-formed `success = false` payload does NOT leave the failure count
unchanged.  With threshold 3 and two failures already recorded for key 1, the
count is 2 before the call; `resilient_call` treats the normal return as a
success and `record_success` resets the count to 0. -/
theorem business_failure_resets_breaker_cex :
    ((CircuitBreaker.init 3 300).iterFailures 1 0 2).failureCount 1 0 = 2 ∧
    (resilient_call (CallOutcome.ok (⟨false⟩ : ApiPayload))
        ((CircuitBreaker.init 3 300).iterFailures 1 0 2) 1 0).cb.failureCount 1 0 = 0 ∧
    (resilient_call (CallOutcome.ok (⟨false⟩ : ApiPayload))
        ((CircuitBreaker.init 3 300).iterFailures 1 0 2) 1 0).cb.failureCount 1 0 ≠
      ((CircuitBreaker.init 3 300).iterFailures 1 0 2).failureCount 1 0 := by
  refine ⟨by decide, by decide, by decide⟩

/-- Claim C1 (amended): when the circuit is closed and the delegate completes
normally returning a well-formed payload with `success = false`, the breaker
records a success: the key's failure count afterwards is 0 — so the count
never increases, and the breaker never opens, on a business-level failure
(it is literally unchanged only when it was already 0). -/
theorem business_failure_never_opens_breaker (cb : CircuitBreaker) (k now : Nat)
    (p : ApiPayload) (hp : p.success = false) (hopen : cb.is_open k now = false) :
    (resilient_call (CallOutcome.ok p) cb k now).cb.failureCount k now = 0 ∧
    (resilient_call (CallOutcome.ok p) cb k now).cb.failureCount k now ≤
      cb.failureCount k now ∧
    (1 ≤ cb.threshold → (resilient_call (CallOutcome.ok p) cb k now).cb.is_open k now = false) := by
  unfold resilient_call
  rw [hopen]
  simp only [Bool.false_eq_true, if_false]
  have hz := CircuitBreaker.failureCount_record_success cb k now
  refine ⟨hz, by rw [hz]; exact Nat.zero_le _, ?_⟩
  intro hth
  unfold CircuitBreaker.is_open
  have hth' : (cb.record_success k now).threshold = cb.threshold := by
    unfold CircuitBreaker.record_success
    by_cases h : cb.failures.contains k now <;> simp [h]
  rw [hth', hz]
  simp
  omega

/-- Witness for C1 (amended) at a concrete input: fresh breaker, key 1. -/
theorem business_failure_never_opens_breaker_witness :
    (⟨false⟩ : ApiPayload).success = false ∧
    (CircuitBreaker.init 3 300).is_open 1 0 = false ∧
    (resilient_call (CallOutcome.ok (⟨false⟩ : ApiPayload))
        (CircuitBreaker.init 3 300) 1 0).cb.failureCount 1 0 = 0 :=
  ⟨rfl, by decide,
    (business_failure_never_opens_breaker (CircuitBreaker.init 3 300) 1 0 ⟨false⟩ rfl
      (by decide)).1⟩

/-- Claim C2: when `is_open(key)` is true, `resilient_call` raises the
circuit-open `RuntimeError` immediately, never invokes the delegate, and
returns the breaker state entirely unchanged. -/
theorem circuit_open_short_circuits {α : Type} (outcome : CallOutcome α)
    (cb : CircuitBreaker) (k now : Nat) (h : cb.is_open k now = true) :
    resilient_call outcome cb k now =
      ⟨Except.error CallError.circuitOpen, cb, false⟩ := by
  unfold resilient_call
  rw [h]
  simp

/-- Witness for C2: a breaker opened by three failures on key 1. -/
theorem circuit_open_short_circuits_witness :
    ((CircuitBreaker.init 3 300).iterFailures 1 0 3).is_open 1 0 = true ∧
    resilient_call (CallOutcome.ok (⟨true⟩ : ApiPayload))
        ((CircuitBreaker.init 3 300).iterFailures 1 0 3) 1 0 =
      ⟨Except.error CallError.circuitOpen,
        (CircuitBreaker.init 3 300).iterFailures 1 0 3, false⟩ :=
  ⟨by decide,
    circuit_open_short_circuits (CallOutcome.ok (⟨true⟩ : ApiPayload))
      ((CircuitBreaker.init 3 300).iterFailures 1 0 3) 1 0 (by decide)⟩

/-- Claim C3: starting from a zero failure count, exactly `threshold`
consecutive `record_failure(k)` calls (no intervening success, no TTL expiry
— the calls happen within the ttl window) make `is_open(k)` true, while
`threshold - 1` such calls leave it false. -/
theorem breaker_opens_at_threshold (th ttl k now : Nat) (hth : 1 ≤ th) (httl : 1 ≤ ttl) :
    ((CircuitBreaker.init th ttl).iterFailures k now th).is_open k now = true ∧
    ((CircuitBreaker.init th ttl).iterFailures k now (th - 1)).is_open k now = false := by
  constructor
  · unfold CircuitBreaker.is_open
    have hc := CircuitBreaker.iterFailures_init_count th ttl k now httl th
    have he := CircuitBreaker.iterFailures_init_eq th ttl k now httl th
    rw [hc, show ((CircuitBreaker.init th ttl).iterFailures k now th).threshold = th by
      rw [he]]
    simp
  · unfold CircuitBreaker.is_open
    have hc := CircuitBreaker.iterFailures_init_count th ttl k now httl (th - 1)
    have he := CircuitBreaker.iterFailures_init_eq th ttl k now httl (th - 1)
    rw [hc, show ((CircuitBreaker.init th ttl).iterFailures k now (th - 1)).threshold = th by
      rw [he]]
    simp
    omega

/-- Witness for C3: threshold 3, reset ttl 300 (the source defaults), key 42. -/
theorem breaker_opens_at_threshold_witness :
    ((CircuitBreaker.init 3 300).iterFailures 42 0 3).is_open 42 0 = true ∧
    ((CircuitBreaker.init 3 300).iterFailures 42 0 2).is_open 42 0 = false :=
  ⟨(breaker_opens_at_threshold 3 300 42 0 (by decide) (by decide)).1,
    (breaker_opens_at_threshold 3 300 42 0 (by decide) (by decide)).2⟩

/-- Claim C4: with the circuit closed, a delegate raising
`httpx.TransportError` makes `resilient_call` increment the key's failure
count by exactly one and re-raise the same error, while any other exception
is re-raised with the whole breaker state (hence every key's count)
unchanged. -/
theorem transport_error_increments_breaker {α : Type} (cb : CircuitBreaker) (k now e e2 : Nat)
    (hopen : cb.is_open k now = false) (httl : 1 ≤ cb.failures.ttl) :
    ((resilient_call (CallOutcome.transportError e : CallOutcome α) cb k now).result =
        Except.error (CallError.transport e) ∧
      (resilient_call (CallOutcome.transportError e : CallOutcome α) cb k now).cb.failureCount
          k now = cb.failureCount k now + 1) ∧
    resilient_call (CallOutcome.otherError e2 : CallOutcome α) cb k now =
      ⟨Except.error (CallError.other e2), cb, true⟩ := by
  unfold resilient_call
  rw [hopen]
  simp only [Bool.false_eq_true, if_false]
  refine ⟨⟨?_, ?_⟩, ?_⟩
  · trivial
  · rw [CircuitBreaker.failureCount_record_failure,
      if_pos (Nat.lt_add_of_pos_right httl)]
  · trivial

/-- Witness for C4: fresh breaker, key 1, transport error 7, other error 8. -/
theorem transport_error_increments_breaker_witness :
    (CircuitBreaker.init 3 300).is_open 1 0 = false ∧
    (resilient_call (CallOutcome.transportError 7 : CallOutcome ApiPayload)
        (CircuitBreaker.init 3 300) 1 0).cb.failureCount 1 0 =
      (CircuitBreaker.init 3 300).failureCount 1 0 + 1 ∧
    resilient_call (CallOutcome.otherError 8 : CallOutcome ApiPayload)
        (CircuitBreaker.init 3 300) 1 0 =
      ⟨Except.error (CallError.other 8), CircuitBreaker.init 3 300, true⟩ :=
  ⟨by decide,
    (@transport_error_increments_breaker ApiPayload (CircuitBreaker.init 3 300) 1 0 7 8
      (by decide) (by decide)).1.2,
    (@transport_error_increments_breaker ApiPayload (CircuitBreaker.init 3 300) 1 0 7 8
      (by decide) (by decide)).2⟩

/-- Claim C5: if the circuit for `k` is open right after a `record_failure`
at time `t` (the most recent increment), then once `reset_ttl` seconds have
elapsed (`t + reset_ttl ≤ now`) `is_open(k)` is false again, with no explicit
reset having been called. -/
theorem breaker_auto_reset_after_ttl (cb : CircuitBreaker) (k t now : Nat)
    (hth : 1 ≤ cb.threshold)
    (hopen : (cb.record_failure k t).is_open k t = true)
    (hnow : t + cb.failures.ttl ≤ now) :
    (cb.record_failure k t).is_open k now = false := by
  unfold CircuitBreaker.is_open
  rw [CircuitBreaker.threshold_record_failure,
    CircuitBreaker.failureCount_record_failure, if_neg (by omega)]
  simp
  omega

theorem resilient_call_result_isError {α : Type} (outcome : CallOutcome α)
    (cb : CircuitBreaker) (k now : Nat)
    (h : cb.is_open k now = true ∨
      ∃ e, outcome = CallOutcome.transportError e ∨ outcome = CallOutcome.otherError e) :
    ∃ err, (resilient_call outcome cb k now).result = Except.error err := by
  unfold resilient_call
  rcases h with h | ⟨e, h | h⟩
  · rw [h]
    exact ⟨CallError.circuitOpen, rfl⟩
  · subst h
    by_cases ho : cb.is_open k now <;> simp [ho]
  · subst h
    by_cases ho : cb.is_open k now <;> simp [ho]

/-- Claim C6: with no cached entry for `id_empresa`, if the underlying
resilient call fails (circuit open or any raised exception) then
`obtener_categorias` returns the default message, `obtener_costos_envio`
returns the empty string, and neither stores anything in its cache — the
cache is returned unchanged, so a later call re-attempts the fetch. -/
theorem read_through_fallback_on_failure
    (cache1 cache2 : TTLCache Nat String) (cb : CircuitBreaker) (id_empresa now : Nat)
    (outcome1 : CallOutcome CategoriasData) (outcome2 : CallOutcome CostoEnvioData)
    (format1 format2 : List Nat → String) (parseZonas : String → Option (List Nat))
    (hmiss1 : cache1.contains id_empresa now = false)
    (hmiss2 : cache2.contains id_empresa now = false)
    (hfail1 : cb.is_open id_empresa now = true ∨
      ∃ e, outcome1 = CallOutcome.transportError e ∨ outcome1 = CallOutcome.otherError e)
    (hfail2 : cb.is_open id_empresa now = true ∨
      ∃ e, outcome2 = CallOutcome.transportError e ∨ outcome2 = CallOutcome.otherError e) :
    (obtener_categorias cache1 cb id_empresa now outcome1 format1).1 =
        DEFAULT_MSG_CATEGORIAS ∧
    (obtener_categorias cache1 cb id_empresa now outcome1 format1).2.1 = cache1 ∧
    (obtener_costos_envio cache2 cb id_empresa now outcome2 parseZonas format2).1 = "" ∧
    (obtener_costos_envio cache2 cb id_empresa now outcome2 parseZonas format2).2.1 =
      cache2 := by
  obtain ⟨err1, herr1⟩ := resilient_call_result_isError outcome1 cb id_empresa now hfail1
  obtain ⟨err2, herr2⟩ := resilient_call_result_isError outcome2 cb id_empresa now hfail2
  unfold obtener_categorias obtener_costos_envio
  rw [hmiss1, hmiss2]
  simp only [Bool.false_eq_true, if_false, herr1, herr2]
  refine ⟨?_, ?_, ?_, ?_⟩ <;> trivial

/-- Witness for C6: empty 1h caches, fresh breaker, a transport error for the
categories fetch and an HTTP status error for the shipping-cost fetch. -/
theorem read_through_fallback_on_failure_witness :
    (⟨500, 3600, []⟩ : TTLCache Nat String).contains 1 0 = false ∧
    (obtener_categorias ⟨500, 3600, []⟩ (CircuitBreaker.init 3 300) 1 0
        (CallOutcome.transportError 7) (fun _ => "X")).1 = DEFAULT_MSG_CATEGORIAS ∧
    (obtener_categorias ⟨500, 3600, []⟩ (CircuitBreaker.init 3 300) 1 0
        (CallOutcome.transportError 7) (fun _ => "X")).2.1 = ⟨500, 3600, []⟩ ∧
    (obtener_costos_envio ⟨500, 3600, []⟩ (CircuitBreaker.init 3 300) 1 0
        (CallOutcome.otherError 9) (fun _ => none) (fun _ => "Y")).1 = "" ∧
    (obtener_costos_envio ⟨500, 3600, []⟩ (CircuitBreaker.init 3 300) 1 0
        (CallOutcome.otherError 9) (fun _ => none) (fun _ => "Y")).2.1 = ⟨500, 3600, []⟩ := by
  have h := read_through_fallback_on_failure ⟨500, 3600, []⟩ ⟨500, 3600, []⟩
    (CircuitBreaker.init 3 300) 1 0 (CallOutcome.transportError 7) (CallOutcome.otherError 9)
    (fun _ => "X") (fun _ => "Y") (fun _ => none) (by decide) (by decide)
    (Or.inr ⟨7, Or.inl rfl⟩) (Or.inr ⟨9, Or.inr rfl⟩)
  exact ⟨by decide, h.1, h.2.1, h.2.2.1, h.2.2.2⟩

/-- Witness for C5: threshold 3, ttl 300; the third failure for key 1 lands at
t = 0 and opens the circuit; at now = 300 the circuit is closed again. -/
theorem breaker_auto_reset_after_ttl_witness :
    1 ≤ ((CircuitBreaker.init 3 300).iterFailures 1 0 2).threshold ∧
    (((CircuitBreaker.init 3 300).iterFailures 1 0 2).record_failure 1 0).is_open 1 0 = true ∧
    0 + ((CircuitBreaker.init 3 300).iterFailures 1 0 2).failures.ttl ≤ 300 ∧
    (((CircuitBreaker.init 3 300).iterFailures 1 0 2).record_failure 1 0).is_open 1 300 = false :=
  ⟨by decide, by decide, by decide,
    breaker_auto_reset_after_ttl ((CircuitBreaker.init 3 300).iterFailures 1 0 2) 1 0 300
      (by decide) (by decide) (by decide)⟩

theorem List.dropWhile_eq_nil_of_all {β : Type} (p : β → Bool) (l : List β)
    (h : ∀ c ∈ l, p c = true) : l.dropWhile p = [] := by
  induction l with
  | nil => rfl
  | cons a l ih =>
    rw [List.dropWhile_cons, if_pos (h a (by simp))]
    exact ih fun c hc => h c (by simp [hc])

theorem pyStrip_eq_empty_of_all_space (s : String) (h : ∀ c ∈ s.data, isPySpace c = true) :
    pyStrip s = "" := by
  unfold pyStrip
  rw [List.dropWhile_eq_nil_of_all isPySpace s.data h]
  rfl

theorem pyLower_eq_empty_iff (s : String) : pyLower s = "" ↔ s = "" := by
  unfold pyLower
  constructor
  · intro h
    have : (s.data.map Char.toLower) = ([] : List Char) := congrArg String.data h
    rw [List.map_eq_nil_iff] at this
    cases s
    simp_all
  · intro h
    subst h
    rfl

/-- Claim C9: a message that is empty or whitespace-only makes
`process_venta_message` return the fixed tuple
`("No recibí tu mensaje. ¿Podrías repetirlo?", None)` with no error recorded,
without touching the agent cache, any lock, or the LLM — whatever the other
inputs are. -/
theorem process_empty_message_early_return (message : String) (session_id : Int)
    (contextError : Option String) (agentOutcome : Except Nat Nat)
    (invokeOutcome : Except Nat InvokeResult)
    (h : ∀ c ∈ message.data, isPySpace c = true) :
    process_venta_message message session_id contextError agentOutcome invokeOutcome =
      ⟨.returns "No recibí tu mensaje. ¿Podrías repetirlo?" none,
        none, false, false, false⟩ := by
  unfold process_venta_message
  rw [if_pos (Or.inr (pyStrip_eq_empty_of_all_space message h))]

/-- Witness for C9: the whitespace-only message `"  \t "`. -/
theorem process_empty_message_early_return_witness :
    process_venta_message "  \t " 5 none (Except.ok 1)
        (Except.ok ⟨none, ["hola"]⟩) =
      ⟨.returns "No recibí tu mensaje. ¿Podrías repetirlo?" none,
        none, false, false, false⟩ :=
  process_empty_message_early_return "  \t " 5 none (Except.ok 1)
    (Except.ok ⟨none, ["hola"]⟩) (by decide)

/-- Claim C8: with a non-blank message, a valid session id and a valid
context, a failure while obtaining/building the agent returns the
configuration-problem fallback classified `agent_creation_error` with the
LLM never invoked (whatever the invocation would have done), while a failure
during invocation returns the processing-problem fallback classified
`agent_execution_error`; neither path propagates an exception. -/
theorem process_error_classification (message : String) (session_id : Int)
    (agentExc agentOk invokeExc : Nat)
    (hmsg : pyStrip message ≠ "") (hsess : ¬ session_id < 0) :
    (∀ invokeOutcome : Except Nat InvokeResult,
      process_venta_message message session_id none (Except.error agentExc) invokeOutcome =
        ⟨.returns "Disculpa, tuve un problema de configuración. ¿Podrías intentar nuevamente?"
            none,
          some ErrorClass.agentCreationError, true, false, false⟩) ∧
    process_venta_message message session_id none (Except.ok agentOk)
        (Except.error invokeExc) =
      ⟨.returns "Disculpa, tuve un problema al procesar tu mensaje. ¿Podrías intentar nuevamente?"
          none,
        some ErrorClass.agentExecutionError, true, true, true⟩ := by
  have hne : ¬ (message = "" ∨ pyStrip message = "") := by
    rintro (h0 | h0)
    · exact hmsg (by rw [h0]; rfl)
    · exact hmsg h0
  constructor
  · intro invokeOutcome
    unfold process_venta_message
    rw [if_neg hne, if_neg hsess]
  · unfold process_venta_message
    rw [if_neg hne, if_neg hsess]

/-- Witness for C8: message "hola", session 5, build failure 3 vs
invocation failure 4. -/
theorem process_error_classification_witness :
    process_venta_message "hola" 5 none (Except.error 3) (Except.ok ⟨none, []⟩) =
      ⟨.returns "Disculpa, tuve un problema de configuración. ¿Podrías intentar nuevamente?"
          none,
        some ErrorClass.agentCreationError, true, false, false⟩ ∧
    process_venta_message "hola" 5 none (Except.ok 1) (Except.error 4) =
      ⟨.returns "Disculpa, tuve un problema al procesar tu mensaje. ¿Podrías intentar nuevamente?"
          none,
        some ErrorClass.agentExecutionError, true, true, true⟩ :=
  ⟨(process_error_classification "hola" 5 3 1 4 (by decide) (by decide)).1
      (Except.ok ⟨none, []⟩),
    (process_error_classification "hola" 5 3 1 4 (by decide) (by decide)).2⟩

/-- Claim C10: two search terms that agree after strip+lower share the cache
key `(id_empresa, term.strip().lower())`; after a successful (cache-missing,
circuit-closed) search for the first term, a search for the second term
within the cache TTL returns the identical cached result with no upstream
call and no cache change. -/
theorem busqueda_cache_key_normalization
    (cache : TTLCache (Nat × String) BusquedaResult) (cb : CircuitBreaker)
    (id_empresa now now2 : Nat) (t1 t2 : String) (data : BusquedaData)
    (outcome2 : CallOutcome BusquedaData)
    (heq : pyLower (pyStrip t1) = pyLower (pyStrip t2))
    (ht1 : pyStrip t1 ≠ "")
    (hmiss : cache.contains (id_empresa, pyLower (pyStrip t1)) now = false)
    (hopen : cb.is_open id_empresa now = false)
    (hsucc : data.success = true)
    (httl : now2 < now + cache.ttl) :
    busquedaCacheKey id_empresa t1 = busquedaCacheKey id_empresa t2 ∧
    (buscar_productos_servicios cache cb id_empresa t1 now (CallOutcome.ok data)).result =
      ⟨true, data.productos, none⟩ ∧
    (buscar_productos_servicios cache cb id_empresa t1 now (CallOutcome.ok data)).apiCalled =
      true ∧
    (buscar_productos_servicios
        (buscar_productos_servicios cache cb id_empresa t1 now (CallOutcome.ok data)).cache
        (buscar_productos_servicios cache cb id_empresa t1 now (CallOutcome.ok data)).cb
        id_empresa t2 now2 outcome2).result = ⟨true, data.productos, none⟩ ∧
    (buscar_productos_servicios
        (buscar_productos_servicios cache cb id_empresa t1 now (CallOutcome.ok data)).cache
        (buscar_productos_servicios cache cb id_empresa t1 now (CallOutcome.ok data)).cb
        id_empresa t2 now2 outcome2).apiCalled = false ∧
    (buscar_productos_servicios
        (buscar_productos_servicios cache cb id_empresa t1 now (CallOutcome.ok data)).cache
        (buscar_productos_servicios cache cb id_empresa t1 now (CallOutcome.ok data)).cb
        id_empresa t2 now2 outcome2).cache =
      (buscar_productos_servicios cache cb id_empresa t1 now (CallOutcome.ok data)).cache := by
  have hkey : busquedaCacheKey id_empresa t1 = busquedaCacheKey id_empresa t2 := by
    unfold busquedaCacheKey
    rw [heq]
  have ht2 : pyStrip t2 ≠ "" := by
    intro h0
    apply ht1
    rw [← pyLower_eq_empty_iff]
    rw [heq, h0]
    rfl
  have h1 : buscar_productos_servicios cache cb id_empresa t1 now (CallOutcome.ok data) =
      ⟨⟨true, data.productos, none⟩,
        cache.set (id_empresa, pyLower (pyStrip t1)) ⟨true, data.productos, none⟩ now,
        cb.record_success id_empresa now, true⟩ := by
    unfold buscar_productos_servicios
    rw [if_neg ht1]
    simp only [hmiss, Bool.false_eq_true, if_false, hopen]
    unfold do_busqueda_api resilient_call
    rw [hopen]
    simp only [Bool.false_eq_true, if_false, hsucc]
    rfl
  rw [h1]
  have hc : (cache.set (id_empresa, pyLower (pyStrip t1)) ⟨true, data.productos, none⟩
      now).contains (id_empresa, pyLower (pyStrip t2)) now2 = true := by
    rw [← heq]
    exact TTLCache.contains_set_self cache _ _ now now2 httl
  have hg : (cache.set (id_empresa, pyLower (pyStrip t1)) ⟨true, data.productos, none⟩
      now).get? (id_empresa, pyLower (pyStrip t2)) now2 =
      some ⟨true, data.productos, none⟩ := by
    rw [← heq, TTLCache.get?_set_self, if_pos httl]
  refine ⟨hkey, rfl, rfl, ?_, ?_, ?_⟩ <;>
    · unfold buscar_productos_servicios
      rw [if_neg ht2]
      simp only [hc, if_true, hg]
      try rfl

/-- Witness for C10: terms `" Zapatos "` and `"zapatos"` on an empty cache. -/
theorem busqueda_cache_key_normalization_witness :
    busquedaCacheKey 1 " Zapatos " = busquedaCacheKey 1 "zapatos" ∧
    (buscar_productos_servicios
        (buscar_productos_servicios ⟨2000, 900, []⟩ (CircuitBreaker.init 3 300) 1 " Zapatos " 0
          (CallOutcome.ok ⟨true, [10, 11], none, none⟩)).cache
        (buscar_productos_servicios ⟨2000, 900, []⟩ (CircuitBreaker.init 3 300) 1 " Zapatos " 0
          (CallOutcome.ok ⟨true, [10, 11], none, none⟩)).cb
        1 "zapatos" 600 (CallOutcome.transportError 7)).result =
      ⟨true, [10, 11], none⟩ ∧
    (buscar_productos_servicios
        (buscar_productos_servicios ⟨2000, 900, []⟩ (CircuitBreaker.init 3 300) 1 " Zapatos " 0
          (CallOutcome.ok ⟨true, [10, 11], none, none⟩)).cache
        (buscar_productos_servicios ⟨2000, 900, []⟩ (CircuitBreaker.init 3 300) 1 " Zapatos " 0
          (CallOutcome.ok ⟨true, [10, 11], none, none⟩)).cb
        1 "zapatos" 600 (CallOutcome.transportError 7)).apiCalled = false := by
  have h := busqueda_cache_key_normalization ⟨2000, 900, []⟩ (CircuitBreaker.init 3 300)
    1 0 600 " Zapatos " "zapatos" ⟨true, [10, 11], none, none⟩
    (CallOutcome.transportError 7) (by decide) (by decide) (by decide) (by decide) rfl
    (by decide)
  exact ⟨h.1, h.2.2.2.1, h.2.2.2.2.1⟩

theorem SFInv.no_builder_of_lock_none {n : Nat} {s : SFState n} (hs : SFInv s)
    (hl : s.lockInDict = none) : ∀ j g v, ¬ s.callers j = SFPhase.building g v := by
  intro j g v hj
  have h0 := (hs.build_inv j g v hj).2.2.2.1
  rw [hl] at h0
  exact Option.noConfusion h0

theorem SFInv.no_builder_of_free {n : Nat} {s : SFState n} (hs : SFInv s)
    {g : Nat} (hg : g < s.nextGen) (hh : s.held g = false) :
    ∀ j g2 v2, ¬ s.callers j = SFPhase.building g2 v2 := by
  intro j g2 v2 hj
  obtain ⟨-, -, -, hdict, hheld⟩ := hs.build_inv j g2 v2 hj
  have hg2 : g2 < s.nextGen := hs.dict_lt g2 hdict
  have hle := hs.gen_le
  have hgg : g = g2 := by omega
  rw [← hgg, hh] at hheld
  exact Bool.noConfusion hheld

theorem SFInv.count_zero {n : Nat} {s : SFState n} (hs : SFInv s) (hc : s.cache = none)
    (hnb : ∀ j g v, ¬ s.callers j = SFPhase.building g v) : s.builderCount = 0 := by
  rcases Nat.eq_zero_or_pos s.builderCount with h0 | h0
  · exact h0
  · have h1 : s.builderCount = 1 := Nat.le_antisymm hs.count_le h0
    rcases hs.count_one h1 with hcc | ⟨j, g2, hb⟩
    · rw [hc] at hcc
      exact Option.noConfusion hcc
    · exact absurd hb (hnb j g2 1)

theorem SFInv_init (n : Nat) : SFInv (SFState.init n) := by
  constructor <;> intros <;> simp_all [SFState.init]

theorem SFInv_step {n : Nat} {buildOk : Nat → Bool} (hOk : ∀ v, buildOk v = true)
    {s t : SFState n} (hstep : SFStep n buildOk s t) : SFInv s → SFInv t := by
  cases hstep with
  | startHit i v hph hc =>
    intro hs
    have hv := hs.cache_inv v hc
    have hnb : ∀ j g2 v2, ¬ s.callers j = SFPhase.building g2 v2 := by
      intro j g2 v2 hj
      have h0 := (hs.build_inv j g2 v2 hj).2.2.1
      rw [hc] at h0
      exact Option.noConfusion h0
    constructor <;> dsimp only
    · exact hs.count_le
    · exact hs.gen_le
    · exact hs.held_lt
    · exact hs.dict_lt
    · intro j g hj
      by_cases hji : j = i
      · subst hji
        rw [Function.update_same] at hj
        exact SFPhase.noConfusion hj
      · rw [Function.update_noteq hji] at hj
        exact hs.wait_lt j g hj
    · intro j g2 v2 hj
      by_cases hji : j = i
      · subst hji
        rw [Function.update_same] at hj
        exact SFPhase.noConfusion hj
      · rw [Function.update_noteq hji] at hj
        exact absurd hj (hnb j g2 v2)
    · intro j k gj vj gk vk hjj hkk
      by_cases hji : j = i
      · subst hji
        rw [Function.update_same] at hjj
        exact SFPhase.noConfusion hjj
      · rw [Function.update_noteq hji] at hjj
        exact absurd hjj (hnb j gj vj)
    · exact hs.cache_inv
    · intro j v2 hj
      by_cases hji : j = i
      · subst hji
        rw [Function.update_same] at hj
        cases hj
        exact hv
      · rw [Function.update_noteq hji] at hj
        exact hs.done_inv j v2 hj
    · intro j
      by_cases hji : j = i
      · subst hji
        rw [Function.update_same]
        exact fun h => SFPhase.noConfusion h
      · rw [Function.update_noteq hji]
        exact hs.no_err j
    · intro h1
      rcases hs.count_one h1 with hcc | ⟨j, g2, hb⟩
      · exact Or.inl hcc
      · exact absurd hb (hnb j g2 1)
    · exact hs.gen_one
  | startNewLock i hph hc hl =>
    intro hs
    have hnb := hs.no_builder_of_lock_none hl
    have hcz : s.builderCount = 0 := hs.count_zero hc hnb
    have hgz : s.nextGen = 0 := by
      rcases Nat.eq_zero_or_pos s.nextGen with h0 | h0
      · exact h0
      · have h1 : s.nextGen = 1 := Nat.le_antisymm hs.gen_le h0
        rcases hs.gen_one h1 with hd | hcc
        · rw [hl] at hd
          exact Option.noConfusion hd
        · rw [hc] at hcc
          exact Option.noConfusion hcc
    constructor <;> dsimp only
    · omega
    · omega
    · intro g hg
      by_cases hgi : g = s.nextGen
      · omega
      · rw [Function.update_noteq hgi] at hg
        have := hs.held_lt g hg
        omega
    · intro g hg
      cases hg
      omega
    · intro j g hj
      by_cases hji : j = i
      · subst hji
        rw [Function.update_same] at hj
        exact SFPhase.noConfusion hj
      · rw [Function.update_noteq hji] at hj
        have := hs.wait_lt j g hj
        omega
    · intro j g v hj
      by_cases hji : j = i
      · subst hji
        rw [Function.update_same] at hj
        cases hj
        refine ⟨by omega, by omega, hc, rfl, ?_⟩
        rw [Function.update_same]
      · rw [Function.update_noteq hji] at hj
        exact absurd hj (hnb j g v)
    · intro j k gj vj gk vk hjj hkk
      by_cases hji : j = i
      · by_cases hki : k = i
        · rw [hji, hki]
        · rw [Function.update_noteq hki] at hkk
          exact absurd hkk (hnb k gk vk)
      · rw [Function.update_noteq hji] at hjj
        exact absurd hjj (hnb j gj vj)
    · intro v hv
      rw [hc] at hv
      exact Option.noConfusion hv
    · intro j v hj
      by_cases hji : j = i
      · subst hji
        rw [Function.update_same] at hj
        exact SFPhase.noConfusion hj
      · rw [Function.update_noteq hji] at hj
        exact absurd (hs.done_inv j v hj).2 (by omega)
    · intro j
      by_cases hji : j = i
      · subst hji
        rw [Function.update_same]
        exact fun h => SFPhase.noConfusion h
      · rw [Function.update_noteq hji]
        exact hs.no_err j
    · intro h1
      right
      refine ⟨i, s.nextGen, ?_⟩
      rw [Function.update_same, hcz]
    · intro h1
      left
      rw [hgz]
  | startLockFree i g hph hc hl hh =>
    intro hs
    have hgd : g < s.nextGen := hs.dict_lt g hl
    have hnb := hs.no_builder_of_free hgd hh
    have hcz : s.builderCount = 0 := hs.count_zero hc hnb
    constructor <;> dsimp only
    · omega
    · exact hs.gen_le
    · intro g2 hg2
      by_cases hgi : g2 = g
      · omega
      · rw [Function.update_noteq hgi] at hg2
        exact hs.held_lt g2 hg2
    · exact hs.dict_lt
    · intro j g2 hj
      by_cases hji : j = i
      · subst hji
        rw [Function.update_same] at hj
        exact SFPhase.noConfusion hj
      · rw [Function.update_noteq hji] at hj
        exact hs.wait_lt j g2 hj
    · intro j g2 v2 hj
      by_cases hji : j = i
      · subst hji
        rw [Function.update_same] at hj
        cases hj
        refine ⟨by omega, by omega, hc, hl, ?_⟩
        rw [Function.update_same]
      · rw [Function.update_noteq hji] at hj
        exact absurd hj (hnb j g2 v2)
    · intro j k gj vj gk vk hjj hkk
      by_cases hji : j = i
      · by_cases hki : k = i
        · rw [hji, hki]
        · rw [Function.update_noteq hki] at hkk
          exact absurd hkk (hnb k gk vk)
      · rw [Function.update_noteq hji] at hjj
        exact absurd hjj (hnb j gj vj)
    · intro v hv
      rw [hc] at hv
      exact Option.noConfusion hv
    · intro j v2 hj
      by_cases hji : j = i
      · subst hji
        rw [Function.update_same] at hj
        exact SFPhase.noConfusion hj
      · rw [Function.update_noteq hji] at hj
        exact absurd (hs.done_inv j v2 hj).2 (by omega)
    · intro j
      by_cases hji : j = i
      · subst hji
        rw [Function.update_same]
        exact fun h => SFPhase.noConfusion h
      · rw [Function.update_noteq hji]
        exact hs.no_err j
    · intro h1
      right
      refine ⟨i, g, ?_⟩
      rw [Function.update_same, hcz]
    · intro h1
      rcases hs.gen_one h1 with hd | hcc
      · exact Or.inl hd
      · rw [hc] at hcc
        exact Option.noConfusion hcc
  | startLockHeld i g hph hc hl hh =>
    intro hs
    constructor <;> dsimp only
    · exact hs.count_le
    · exact hs.gen_le
    · exact hs.held_lt
    · exact hs.dict_lt
    · intro j g2 hj
      by_cases hji : j = i
      · subst hji
        rw [Function.update_same] at hj
        cases hj
        exact hs.dict_lt g hl
      · rw [Function.update_noteq hji] at hj
        exact hs.wait_lt j g2 hj
    · intro j g2 v2 hj
      by_cases hji : j = i
      · subst hji
        rw [Function.update_same] at hj
        exact SFPhase.noConfusion hj
      · rw [Function.update_noteq hji] at hj
        exact hs.build_inv j g2 v2 hj
    · intro j k gj vj gk vk hjj hkk
      by_cases hji : j = i
      · subst hji
        rw [Function.update_same] at hjj
        exact SFPhase.noConfusion hjj
      · rw [Function.update_noteq hji] at hjj
        by_cases hki : k = i
        · subst hki
          rw [Function.update_same] at hkk
          exact SFPhase.noConfusion hkk
        · rw [Function.update_noteq hki] at hkk
          exact hs.build_uniq j k gj vj gk vk hjj hkk
    · exact hs.cache_inv
    · intro j v2 hj
      by_cases hji : j = i
      · subst hji
        rw [Function.update_same] at hj
        exact SFPhase.noConfusion hj
      · rw [Function.update_noteq hji] at hj
        exact hs.done_inv j v2 hj
    · intro j
      by_cases hji : j = i
      · subst hji
        rw [Function.update_same]
        exact fun h => SFPhase.noConfusion h
      · rw [Function.update_noteq hji]
        exact hs.no_err j
    · intro h1
      rcases hs.count_one h1 with hcc | ⟨j, g2, hb⟩
      · exact Or.inl hcc
      · right
        by_cases hji : j = i
        · subst hji
          rw [hph] at hb
          exact SFPhase.noConfusion hb
        · refine ⟨j, g2, ?_⟩
          rw [Function.update_noteq hji]
          exact hb
    · exact hs.gen_one
  | waitHit i g v hph hh hc =>
    intro hs
    have hv := hs.cache_inv v hc
    have hnb : ∀ j g2 v2, ¬ s.callers j = SFPhase.building g2 v2 := by
      intro j g2 v2 hj
      have h0 := (hs.build_inv j g2 v2 hj).2.2.1
      rw [hc] at h0
      exact Option.noConfusion h0
    constructor <;> dsimp only
    · exact hs.count_le
    · exact hs.gen_le
    · exact hs.held_lt
    · intro g2 h2
      exact Option.noConfusion h2
    · intro j g2 hj
      by_cases hji : j = i
      · subst hji
        rw [Function.update_same] at hj
        exact SFPhase.noConfusion hj
      · rw [Function.update_noteq hji] at hj
        exact hs.wait_lt j g2 hj
    · intro j g2 v2 hj
      by_cases hji : j = i
      · subst hji
        rw [Function.update_same] at hj
        exact SFPhase.noConfusion hj
      · rw [Function.update_noteq hji] at hj
        exact absurd hj (hnb j g2 v2)
    · intro j k gj vj gk vk hjj hkk
      by_cases hji : j = i
      · subst hji
        rw [Function.update_same] at hjj
        exact SFPhase.noConfusion hjj
      · rw [Function.update_noteq hji] at hjj
        exact absurd hjj (hnb j gj vj)
    · exact hs.cache_inv
    · intro j v2 hj
      by_cases hji : j = i
      · subst hji
        rw [Function.update_same] at hj
        cases hj
        exact hv
      · rw [Function.update_noteq hji] at hj
        exact hs.done_inv j v2 hj
    · intro j
      by_cases hji : j = i
      · subst hji
        rw [Function.update_same]
        exact fun h => SFPhase.noConfusion h
      · rw [Function.update_noteq hji]
        exact hs.no_err j
    · intro h1
      left
      rw [hc, hv.1]
    · intro h1
      right
      rw [hc, hv.1]
  | waitMiss i g hph hh hc =>
    intro hs
    have hgw : g < s.nextGen := hs.wait_lt i g hph
    have hnb := hs.no_builder_of_free hgw hh
    have hcz : s.builderCount = 0 := hs.count_zero hc hnb
    have hle := hs.gen_le
    have hg1 : s.nextGen = 1 := by omega
    have hg0 : g = 0 := by omega
    have hdict : s.lockInDict = some 0 := by
      rcases hs.gen_one hg1 with hd | hcc
      · exact hd
      · rw [hc] at hcc
        exact Option.noConfusion hcc
    constructor <;> dsimp only
    · omega
    · exact hs.gen_le
    · intro g2 hg2
      by_cases hgi : g2 = g
      · omega
      · rw [Function.update_noteq hgi] at hg2
        exact hs.held_lt g2 hg2
    · exact hs.dict_lt
    · intro j g2 hj
      by_cases hji : j = i
      · subst hji
        rw [Function.update_same] at hj
        exact SFPhase.noConfusion hj
      · rw [Function.update_noteq hji] at hj
        exact hs.wait_lt j g2 hj
    · intro j g2 v2 hj
      by_cases hji : j = i
      · subst hji
        rw [Function.update_same] at hj
        cases hj
        refine ⟨by omega, by omega, hc, ?_, ?_⟩
        · rw [hg0]
          exact hdict
        · rw [Function.update_same]
      · rw [Function.update_noteq hji] at hj
        exact absurd hj (hnb j g2 v2)
    · intro j k gj vj gk vk hjj hkk
      by_cases hji : j = i
      · by_cases hki : k = i
        · rw [hji, hki]
        · rw [Function.update_noteq hki] at hkk
          exact absurd hkk (hnb k gk vk)
      · rw [Function.update_noteq hji] at hjj
        exact absurd hjj (hnb j gj vj)
    · intro v hv
      rw [hc] at hv
      exact Option.noConfusion hv
    · intro j v2 hj
      by_cases hji : j = i
      · subst hji
        rw [Function.update_same] at hj
        exact SFPhase.noConfusion hj
      · rw [Function.update_noteq hji] at hj
        exact absurd (hs.done_inv j v2 hj).2 (by omega)
    · intro j
      by_cases hji : j = i
      · subst hji
        rw [Function.update_same]
        exact fun h => SFPhase.noConfusion h
      · rw [Function.update_noteq hji]
        exact hs.no_err j
    · intro h1
      right
      refine ⟨i, g, ?_⟩
      rw [Function.update_same, hcz]
    · intro h1
      left
      exact hdict
  | buildSucceeds i g v hph hok =>
    intro hs
    obtain ⟨hv1, hcnt, hcn, hdict, hheld⟩ := hs.build_inv i g v hph
    constructor <;> dsimp only
    · exact hs.count_le
    · exact hs.gen_le
    · intro g2 h2
      by_cases hgi : g2 = g
      · subst hgi
        rw [Function.update_same] at h2
        exact Bool.noConfusion h2
      · rw [Function.update_noteq hgi] at h2
        exact hs.held_lt g2 h2
    · intro g2 h2
      exact Option.noConfusion h2
    · intro j g2 hj
      by_cases hji : j = i
      · subst hji
        rw [Function.update_same] at hj
        exact SFPhase.noConfusion hj
      · rw [Function.update_noteq hji] at hj
        exact hs.wait_lt j g2 hj
    · intro j g2 v2 hj
      by_cases hji : j = i
      · subst hji
        rw [Function.update_same] at hj
        exact SFPhase.noConfusion hj
      · rw [Function.update_noteq hji] at hj
        exact absurd (hs.build_uniq j i g2 v2 g v hj hph) hji
    · intro j k gj vj gk vk hjj hkk
      by_cases hji : j = i
      · subst hji
        rw [Function.update_same] at hjj
        exact SFPhase.noConfusion hjj
      · rw [Function.update_noteq hji] at hjj
        exact absurd (hs.build_uniq j i gj vj g v hjj hph) hji
    · intro v2 hv2
      cases hv2
      exact ⟨hv1, hcnt⟩
    · intro j v2 hj
      by_cases hji : j = i
      · subst hji
        rw [Function.update_same] at hj
        cases hj
        exact ⟨hv1, hcnt⟩
      · rw [Function.update_noteq hji] at hj
        exact hs.done_inv j v2 hj
    · intro j
      by_cases hji : j = i
      · subst hji
        rw [Function.update_same]
        exact fun h => SFPhase.noConfusion h
      · rw [Function.update_noteq hji]
        exact hs.no_err j
    · intro h1
      left
      rw [hv1]
    · intro h1
      right
      rw [hv1]
  | buildFails i g v hph hok =>
    intro hs
    rw [hOk v] at hok
    exact Bool.noConfusion hok

theorem SFInv_reachable {n : Nat} {buildOk : Nat → Bool} (hOk : ∀ v, buildOk v = true)
    {s : SFState n} (h : SFReachable n buildOk s) : SFInv s := by
  unfold SFReachable at h
  induction h with
  | refl => exact SFInv_init n
  | tail hab hbc ih => exact SFInv_step hOk hbc ih

theorem SFPhase.isBuilding_iff (ph : SFPhase) :
    ph.isBuilding = true ↔ ∃ g v, ph = SFPhase.building g v := by
  cases ph <;> simp [SFPhase.isBuilding]

/-- Claim C7, counterexample: two concurrent `_get_agent` callers on an empty
cache with a builder whose first invocation fails.  A reachable execution
ends with both callers done, the builder invoked twice, and the two callers
observing different results (a propagated failure vs agent 2) — refuting
"the builder is invoked exactly once and all N callers observe the same
result". -/
theorem singleflight_exactly_once_cex :
    SFReachable 2 sfFirstFails sfC5 ∧
    (∀ i, (sfC5.callers i).isDone = true) ∧
    sfC5.builderCount = 2 ∧
    sfC5.callers 0 = SFPhase.doneErr ∧
    sfC5.callers 1 = SFPhase.doneOk 2 := by
  refine ⟨?_, by decide, by decide, by decide, by decide⟩
  have s1 : SFStep 2 sfFirstFails (SFState.init 2) sfW1 :=
    SFStep.startNewLock (SFState.init 2) 0 rfl rfl rfl
  have s2 : SFStep 2 sfFirstFails sfW1 sfC2 :=
    SFStep.startLockHeld sfW1 1 0 (by decide) rfl rfl (by decide)
  have s3 : SFStep 2 sfFirstFails sfC2 sfC3 :=
    SFStep.buildFails sfC2 0 0 1 (by decide) (by decide)
  have s4 : SFStep 2 sfFirstFails sfC3 sfC4 :=
    SFStep.waitMiss sfC3 1 0 (by decide) (by decide) rfl
  have s5 : SFStep 2 sfFirstFails sfC4 sfC5 :=
    SFStep.buildSucceeds sfC4 1 0 2 (by decide) (by decide)
  exact Relation.ReflTransGen.head s1 (Relation.ReflTransGen.head s2
    (Relation.ReflTransGen.head s3 (Relation.ReflTransGen.head s4
      (Relation.ReflTransGen.head s5 Relation.ReflTransGen.refl))))

/-- Claim C7 (amended): in the singleflight pattern of `_get_agent` (and of
`buscar_productos_servicios`), when every build invocation succeeds, every
reachable state of `N ≥ 1` concurrent callers on an empty cache has at most
one build in flight; every caller that returned normally observed the result
of the first (unique) build; and once all callers are done the builder was
invoked exactly once.  (When a build can fail, the code deliberately lets
queued callers re-attempt, so "exactly once / same result" holds only for
successful builds — see the counterexample.) -/
theorem singleflight_exactly_once_on_success (n : Nat) (buildOk : Nat → Bool)
    (hOk : ∀ v, buildOk v = true) (s : SFState n) (hreach : SFReachable n buildOk s) :
    (∀ i j, (s.callers i).isBuilding = true → (s.callers j).isBuilding = true → i = j) ∧
    (∀ i v, s.callers i = SFPhase.doneOk v → v = 1) ∧
    ((∀ i, (s.callers i).isDone = true) → 0 < n → s.builderCount = 1) := by
  have hinv := SFInv_reachable hOk hreach
  refine ⟨?_, ?_, ?_⟩
  · intro i j hi hj
    obtain ⟨gi, vi, hci⟩ := (SFPhase.isBuilding_iff _).mp hi
    obtain ⟨gj, vj, hcj⟩ := (SFPhase.isBuilding_iff _).mp hj
    exact hinv.build_uniq i j gi vi gj vj hci hcj
  · intro i v hv
    exact (hinv.done_inv i v hv).1
  · intro hdone hn
    have hd := hdone ⟨0, hn⟩
    cases hci : s.callers ⟨0, hn⟩ with
    | doneOk v => exact (hinv.done_inv ⟨0, hn⟩ v hci).2
    | doneErr => exact absurd hci (hinv.no_err ⟨0, hn⟩)
    | start =>
      rw [hci] at hd
      exact Bool.noConfusion hd
    | waiting g =>
      rw [hci] at hd
      exact Bool.noConfusion hd
    | building g v =>
      rw [hci] at hd
      exact Bool.noConfusion hd

/-- Witness for C7 (amended): two callers, always-succeeding builder; caller
0 builds agent 1, caller 1 takes the fast path; the final state is reachable,
all callers are done with the same agent, and the builder ran exactly once. -/
theorem singleflight_exactly_once_on_success_witness :
    SFReachable 2 sfAllOk sfW3 ∧
    (∀ i, (sfW3.callers i).isDone = true) ∧
    sfW3.builderCount = 1 ∧
    sfW3.callers 0 = SFPhase.doneOk 1 ∧
    sfW3.callers 1 = SFPhase.doneOk 1 := by
  have hreach : SFReachable 2 sfAllOk sfW3 := by
    have s1 : SFStep 2 sfAllOk (SFState.init 2) sfW1 :=
      SFStep.startNewLock (SFState.init 2) 0 rfl rfl rfl
    have s2 : SFStep 2 sfAllOk sfW1 sfW2 :=
      SFStep.buildSucceeds sfW1 0 0 1 (by decide) rfl
    have s3 : SFStep 2 sfAllOk sfW2 sfW3 :=
      SFStep.startHit sfW2 1 1 (by decide) rfl
    exact Relation.ReflTransGen.head s1 (Relation.ReflTransGen.head s2
      (Relation.ReflTransGen.head s3 Relation.ReflTransGen.refl))
  refine ⟨hreach, by decide, ?_, by decide, by decide⟩
  exact (singleflight_exactly_once_on_success 2 sfAllOk (fun v => rfl) sfW3 hreach).2.2
    (by decide) (by decide)

end Ventas
